import Mathlib

/-!
Verification development for the COM object-model code generators of com-rs:
the IUnknown implementation emitted by the co_class macro
(src/macros/co_class/src/iunknown_impl.rs) and the aggregable-class
implementation emitted by aggr_co_class_derive
(src/macros/aggr_co_class_derive/src/com_struct_impl.rs).

The generators emit, for a class declared with a list of directly implemented
interfaces and a map from aggregated fields to their forwarded interfaces, the
functions query_interface / add_ref / release (co_class) and
inner_query_interface / inner_add_ref / inner_release plus allocate and
set_iunknown (aggr_co_class_derive).  We embed the runtime semantics of the
emitted functions: the per-class interface lists become data carried by the
object state, and each emitted if/else chain becomes a first-match search over
that data.
-/

namespace ComRs

/-- An interface identifier: an opaque 128-bit value compared by equality.
We carry it as a natural number below 2^128. -/
abbrev IID := Nat

/-- The IID of IUnknown (com::IID_IUNKNOWN).  The concrete value of the GUID
is irrelevant to the semantics: it is only ever compared by equality. -/
def IID_IUNKNOWN : IID := 0xC000000000000046

/-- winapi NOERROR, the success HRESULT. -/
def NOERROR : Int := 0

/-- winapi E_NOINTERFACE (0x80004002 read as a two-complement i32). -/
def E_NOINTERFACE : Int := -2147467262

/-- Modelled from the spec: com::failed is defined outside src/ (in the com
runtime crate); an HRESULT denotes failure exactly when it is negative. -/
def failed (hr : Int) : Bool := hr < 0

/-- Modelled from the spec: is_iid_in_inheritance_chain for an interface is
defined outside src/ (in the com runtime crate); it tests membership of the
requested id in the static ancestor chain of the interface.  We carry each
interface as its chain, so the test is list membership. -/
def iidInChain (ch : List IID) (riid : IID) : Bool := ch.contains riid

/-- The u32 modulus governing the reference-count fields. -/
def U32 : Nat := 2 ^ 32

/-- Index of the first element of a list satisfying a predicate.  This is the
runtime meaning of the emitted else-if cascade: the arms are tried in order
and the first whose condition holds is taken. -/
def findFirst {α : Type} (p : α → Bool) : List α → Option Nat
  | [] => none
  | a :: as => if p a then some 0 else (findFirst p as).map (· + 1)

/-- The guard of one emitted aggregation arm: the requested id is in the
inheritance chain of at least one interface declared for that aggregated
field (the emitted condition is the disjunction over the declared list). -/
def aggrGuard {α : Type} (riid : IID) (e : List (List IID) × α) : Bool :=
  e.1.any (fun ch => iidInChain ch riid)

/-- The guard of one emitted base-interface arm. -/
def baseGuard (riid : IID) (ch : List IID) : Bool := iidInChain ch riid

/-!  The aggregable class emitted by aggr_co_class_derive.

An instance carries, per the emitted allocate: one vptr field per directly
implemented interface, the __non_delegating_unk vtable, __iunk_to_use and the
init struct (neither is read by the embedded operations, so they are not
carried), the __refcnt field, and one raw pointer field per aggregated entry.
An aggregated field is an untyped IUnknown pointer; a never-set field is null
(modelled as none).  A wired field points at some foreign object whose
query_interface we can only treat as an oracle: the responder returns the
HRESULT and the value it stores through ppv. -/

/-- One aggregated entry of the aggregable class: the declared interface
chains for the field, and the stored pointer (none models a null field; a
wired field carries the foreign object responder). -/
abbrev ARespEntry := List (List IID) × Option (IID → Int × Option Nat)

structure AggrObj where
  baseChains : List (List IID)
  aggrs : List ARespEntry
  refCnt : Nat

/-- inner_add_ref of the aggregable class: self.__refcnt += 1 with the plain
u32 addition (no checked arithmetic in the emitted code), returning the new
count. -/
def AggrObj.inner_add_ref (o : AggrObj) : Nat × AggrObj :=
  let c := (o.refCnt + 1) % U32
  (c, { o with refCnt := c })

/-- inner_release of the aggregable class: self.__refcnt -= 1 with the plain
u32 subtraction (no checked arithmetic in the emitted code); if the new count
is 0 the instance is deallocated (Box::from_raw).  Returns the new count, the
deallocation event, and the state. -/
def AggrObj.inner_release (o : AggrObj) : Nat × Bool × AggrObj :=
  let c := (o.refCnt + (U32 - 1)) % U32
  (c, c == 0, { o with refCnt := c })

/-- A pointer value stored through ppv by the aggregable class. -/
inductive APtr where
  | null
  | nonDelUnk
  | vptr (i : Nat)
  | fwd (t : Nat)
  deriving DecidableEq

/-- Result of inner_query_interface: either a returned HRESULT together with
the ppv value and the object state, or undefined behaviour (the emitted code
dereferenced a null pointer). -/
inductive AQIRes where
  | ok (hr : Int) (ppv : APtr) (o : AggrObj)
  | crash

/-- The success tail of inner_query_interface: println, self.inner_add_ref(),
return NOERROR with ppv already written. -/
def AggrObj.qiFinish (o : AggrObj) (p : APtr) : AQIRes :=
  let r := o.inner_add_ref
  .ok NOERROR p r.2

/-- One emitted aggregation arm of inner_query_interface.  The emitted code
has no null check on the aggregated field: it builds ComPtr::new from the
stored pointer and calls query_interface through it, so a never-set (null)
field is a null vtable dereference.  On a failed forward it returns
E_NOINTERFACE at once, leaving ppv as the forward wrote it; on success it
issues the compensating release on the forwarded pointer (acting on the
foreign object, outside the carried state), forgets the ComPtr, and falls
through to the success tail. -/
def AggrObj.aggrArm (o : AggrObj) (entry : ARespEntry) (riid : IID) : AQIRes :=
  match entry.2 with
  | none => .crash
  | some resp =>
      let r := resp riid
      let ppv : APtr := match r.2 with
        | none => APtr.null
        | some t => APtr.fwd t
      if failed r.1 then .ok E_NOINTERFACE ppv o
      else o.qiFinish ppv

/-- inner_query_interface of the aggregable class, following the emitted
chain: the IID_IUNKNOWN test answering with the __non_delegating_unk field,
then one arm per directly implemented interface answering with its vptr
field, then one arm per aggregated entry, then the final else storing null
and returning E_NOINTERFACE. -/
def AggrObj.inner_query_interface (o : AggrObj) (riid : IID) : AQIRes :=
  if riid = IID_IUNKNOWN then o.qiFinish .nonDelUnk
  else match findFirst (baseGuard riid) o.baseChains with
  | some i => o.qiFinish (.vptr i)
  | none =>
    match findFirst (aggrGuard riid) o.aggrs with
    | some j =>
      match o.aggrs.get? j with
      | some entry => o.aggrArm entry riid
      | none => .crash
    | none => .ok E_NOINTERFACE .null o

/-!  The non-aggregable class emitted by co_class.

Its aggregated fields hold the non-delegating IUnknown pointer of an inner
object created by the aggregable-class machinery, so a forwarded
query_interface dispatches to the inner object inner_query_interface and the
compensating release dispatches to inner_release (modelled from the spec:
the class-factory wiring that stores the inner non-delegating identity in the
outer field is outside src/). -/

/-- One aggregated entry of the co_class: declared interface chains and the
stored pointer (none models a null field, some an aggregated inner object
reached through its non-delegating identity). -/
abbrev CEntry := List (List IID) × Option AggrObj

structure CoClass where
  baseChains : List (List IID)
  aggrs : List CEntry
  refCount : Nat

/-- add_ref of co_class: self.__refcnt.checked_add(1).expect(...).  The
checked addition panics (none) exactly when the u32 count is at its maximum;
otherwise it stores and returns the incremented count. -/
def CoClass.add_ref (o : CoClass) : Option (Nat × CoClass) :=
  if o.refCount + 1 < U32 then
    some (o.refCount + 1, { o with refCount := o.refCount + 1 })
  else none

/-- release of co_class: self.__refcnt.checked_sub(1).expect(...).  The
checked subtraction panics (none) exactly when the count is 0; otherwise it
stores the decremented count, deallocates (Box::from_raw) when that count is
0, and returns it.  The middle component records the deallocation event. -/
def CoClass.release (o : CoClass) : Option (Nat × Bool × CoClass) :=
  match o.refCount with
  | 0 => none
  | Nat.succ c => some (c, c == 0, { o with refCount := c })

/-- A pointer value stored through ppv by the co_class query_interface:
null, the vptr field of the i-th directly implemented interface, or a
pointer obtained by forwarding to the j-th aggregated inner. -/
inductive CPtr where
  | null
  | vptr (i : Nat)
  | innerPtr (j : Nat) (p : APtr)
  deriving DecidableEq

/-- Result of the co_class query_interface: a returned HRESULT with the ppv
value and the state, a panic of the checked reference-count arithmetic
(fatal), or undefined behaviour propagated from a forwarded inner query. -/
inductive CQIRes where
  | ok (hr : Int) (ppv : CPtr) (o : CoClass)
  | fatal
  | crash

/-- The success tail of query_interface: println, self.add_ref(), return
NOERROR with ppv already written.  add_ref panics on u32 overflow. -/
def CoClass.qiFinish (o : CoClass) (p : CPtr) : CQIRes :=
  match o.add_ref with
  | some r => .ok NOERROR p r.2
  | none => .fatal

/-- Replace the inner object stored at aggregated entry j. -/
def CoClass.setInner (o : CoClass) (j : Nat) (ds : List (List IID))
    (inner : AggrObj) : CoClass :=
  { o with aggrs := o.aggrs.set j (ds, some inner) }

/-- One emitted aggregation arm of the co_class query_interface.  Unlike the
aggregable class, the emitted code first tests self.field.is_null() and
answers E_NOINTERFACE with a null ppv for an unwired field.  Otherwise it
forwards through the stored non-delegating identity of the inner: on failure
it stores null and returns E_NOINTERFACE; on success it issues the
compensating inner_release (whose deallocation event and return value the
emitted code discards), forgets the ComPtr, and falls through to the success
tail, which increments the outer count. -/
def CoClass.aggrArm (o : CoClass) (j : Nat) (entry : CEntry) (riid : IID) :
    CQIRes :=
  match entry.2 with
  | none => .ok E_NOINTERFACE .null o
  | some inner =>
    match inner.inner_query_interface riid with
    | .crash => .crash
    | .ok hr p inner' =>
      if failed hr then .ok E_NOINTERFACE .null (o.setInner j entry.1 inner')
      else
        let r := inner'.inner_release
        (o.setInner j entry.1 r.2.2).qiFinish (.innerPtr j p)

/-- query_interface of co_class, following the emitted chain: the
IID_IUNKNOWN test answering with the vptr field of the first listed
implemented interface, then one arm per directly implemented interface, then
one arm per aggregated entry (in the incidental iteration order of the
HashMap, carried here as the list order), then the final else storing null
and returning E_NOINTERFACE. -/
def CoClass.query_interface (o : CoClass) (riid : IID) : CQIRes :=
  if riid = IID_IUNKNOWN then o.qiFinish (.vptr 0)
  else match findFirst (baseGuard riid) o.baseChains with
  | some i => o.qiFinish (.vptr i)
  | none =>
    match findFirst (aggrGuard riid) o.aggrs with
    | some j =>
      match o.aggrs.get? j with
      | some entry => o.aggrArm j entry riid
      | none => .crash
    | none => .ok E_NOINTERFACE .null o

/-!  The resolution cascade as the specification words it. -/

/-- Which step of the resolution cascade answers a request. -/
inductive Resolution where
  | identity
  | base (i : Nat)
  | inner (j : Nat)
  | noInterface
  deriving DecidableEq

/-- Modelled from the spec: the fixed resolution order of the Query Resolver,
first match wins — (1) the requested id equals the identity id; (2) the
first directly implemented interface whose ancestor chain holds the id;
(3) the first aggregated entry one of whose declared chains holds the id;
(4) otherwise no interface. -/
def resolveSpec (riid : IID) (baseChains : List (List IID))
    (aggrDecls : List (List (List IID))) : Resolution :=
  if riid = IID_IUNKNOWN then .identity
  else match findFirst (baseGuard riid) baseChains with
  | some i => .base i
  | none =>
    match findFirst (fun ds => ds.any (fun ch => iidInChain ch riid)) aggrDecls with
    | some j => .inner j
    | none => .noInterface

/-!  Helper lemmas about the first-match search. -/

theorem findFirst_map {α β : Type} (p : β → Bool) (f : α → β) (l : List α) :
    findFirst p (l.map f) = findFirst (fun a => p (f a)) l := by
  induction l with
  | nil => rfl
  | cons a as ih => simp only [List.map, findFirst, ih]

theorem findFirst_eq_none {α : Type} (p : α → Bool) (l : List α) :
    findFirst p l = none ↔ ∀ a ∈ l, p a = false := by
  induction l with
  | nil => simp [findFirst]
  | cons a as ih =>
    simp only [findFirst]
    by_cases h : p a
    · simp [h]
    · rw [if_neg h]
      constructor
      · intro hn b hb
        rcases List.mem_cons.mp hb with rfl | hb'
        · simpa using h
        · refine (ih.mp ?_) b hb'
          cases hf : findFirst p as with
          | none => rfl
          | some k => rw [hf] at hn; simp at hn
      · intro hall
        rw [ih.mpr (fun b hb => hall b (List.mem_cons_of_mem a hb))]
        rfl

theorem findFirst_isSome_of_mem {α : Type} {p : α → Bool} {l : List α}
    {a : α} (ha : a ∈ l) (hp : p a = true) : ∃ i, findFirst p l = some i := by
  induction l with
  | nil => cases ha
  | cons b bs ih =>
    by_cases hb : p b
    · exact ⟨0, by simp [findFirst, hb]⟩
    · rcases List.mem_cons.mp ha with h | h
      · exact absurd (h ▸ hp) hb
      · rcases ih h with ⟨i, hi⟩
        exact ⟨i + 1, by simp [findFirst, hb, hi]⟩

theorem findFirst_some_get {α : Type} {p : α → Bool} {l : List α} {i : Nat}
    (h : findFirst p l = some i) : ∃ a, l.get? i = some a ∧ p a = true := by
  induction l generalizing i with
  | nil => cases h
  | cons b bs ih =>
    simp only [findFirst] at h
    by_cases hb : p b
    · rw [if_pos hb] at h
      cases h
      exact ⟨b, rfl, hb⟩
    · rw [if_neg hb] at h
      rcases Option.map_eq_some'.mp h with ⟨k, hk, hki⟩
      rcases ih hk with ⟨a, ha, hpa⟩
      refine ⟨a, ?_, hpa⟩
      subst hki
      simpa using ha

/-- The predicate of the spec-side aggregated search agrees with the emitted
arm guard through the projection to the declared chains. -/
theorem findFirst_aggrDecls (riid : IID) {α : Type}
    (l : List (List (List IID) × α)) :
    findFirst (fun ds => ds.any (fun ch => iidInChain ch riid)) (l.map Prod.fst)
      = findFirst (aggrGuard riid) l := by
  rw [findFirst_map]
  rfl

/-- Eliminating the inner case of the spec-side cascade: it can only arise
from the aggregated search succeeding at that index. -/
theorem resolveSpec_inner_elim {riid : IID} {bcs : List (List IID)}
    {ads : List (List (List IID))} {j : Nat}
    (h : resolveSpec riid bcs ads = .inner j) :
    findFirst (fun ds => ds.any (fun ch => iidInChain ch riid)) ads = some j := by
  unfold resolveSpec at h
  by_cases hid : riid = IID_IUNKNOWN
  · rw [if_pos hid] at h
    cases h
  · rw [if_neg hid] at h
    cases hb : findFirst (baseGuard riid) bcs with
    | some i => rw [hb] at h; cases h
    | none =>
      rw [hb] at h
      cases hm : findFirst (fun ds => ds.any (fun ch => iidInChain ch riid)) ads with
      | some k => rw [hm] at h; cases h; rfl
      | none => rw [hm] at h; cases h

/-- The co_class query_interface is exactly a dispatch over the resolution
cascade of the spec. -/
theorem query_interface_cases (o : CoClass) (riid : IID) :
    o.query_interface riid =
      (match resolveSpec riid o.baseChains (o.aggrs.map Prod.fst) with
       | .identity => o.qiFinish (.vptr 0)
       | .base i => o.qiFinish (.vptr i)
       | .inner j =>
         (match o.aggrs.get? j with
          | some entry => o.aggrArm j entry riid
          | none => .crash)
       | .noInterface => .ok E_NOINTERFACE .null o) := by
  simp only [CoClass.query_interface, resolveSpec, findFirst_aggrDecls]
  by_cases h : riid = IID_IUNKNOWN
  · rw [if_pos h, if_pos h]
  · rw [if_neg h, if_neg h]
    cases hb : findFirst (baseGuard riid) o.baseChains with
    | some i => rfl
    | none =>
      cases ha : findFirst (aggrGuard riid) o.aggrs with
      | some j => rfl
      | none => rfl

/-- The aggregable-class inner_query_interface is exactly a dispatch over the
resolution cascade of the spec. -/
theorem inner_query_interface_cases (a : AggrObj) (riid : IID) :
    a.inner_query_interface riid =
      (match resolveSpec riid a.baseChains (a.aggrs.map Prod.fst) with
       | .identity => a.qiFinish .nonDelUnk
       | .base i => a.qiFinish (.vptr i)
       | .inner j =>
         (match a.aggrs.get? j with
          | some entry => a.aggrArm entry riid
          | none => .crash)
       | .noInterface => .ok E_NOINTERFACE .null a) := by
  simp only [AggrObj.inner_query_interface, resolveSpec, findFirst_aggrDecls]
  by_cases h : riid = IID_IUNKNOWN
  · rw [if_pos h, if_pos h]
  · rw [if_neg h, if_neg h]
    cases hb : findFirst (baseGuard riid) a.baseChains with
    | some i => rfl
    | none =>
      cases ha : findFirst (aggrGuard riid) a.aggrs with
      | some j => rfl
      | none => rfl

/-- C1: both the generated query_interface and the non-delegating
inner_query_interface resolve a requested id in the fixed order of the spec,
first match wins: (1) the identity id answers with the identity table (the
first vptr field for the public co_class surface, the non-delegating
IUnknown table for the inner surface); (2) otherwise the first directly
implemented interface whose ancestor chain holds the id answers with its
dispatch-table pointer; (3) otherwise the first matching aggregated entry is
tried; (4) otherwise the call fails with E_NOINTERFACE. -/
theorem c1_resolution_order (o : CoClass) (a : AggrObj) (riid : IID) :
    ((resolveSpec riid o.baseChains (o.aggrs.map Prod.fst) = .identity →
        o.query_interface riid = o.qiFinish (.vptr 0)) ∧
     (∀ i, resolveSpec riid o.baseChains (o.aggrs.map Prod.fst) = .base i →
        o.query_interface riid = o.qiFinish (.vptr i)) ∧
     (∀ j, resolveSpec riid o.baseChains (o.aggrs.map Prod.fst) = .inner j →
        ∃ entry, o.aggrs.get? j = some entry ∧
          o.query_interface riid = o.aggrArm j entry riid) ∧
     (resolveSpec riid o.baseChains (o.aggrs.map Prod.fst) = .noInterface →
        o.query_interface riid = .ok E_NOINTERFACE .null o)) ∧
    ((resolveSpec riid a.baseChains (a.aggrs.map Prod.fst) = .identity →
        a.inner_query_interface riid = a.qiFinish .nonDelUnk) ∧
     (∀ i, resolveSpec riid a.baseChains (a.aggrs.map Prod.fst) = .base i →
        a.inner_query_interface riid = a.qiFinish (.vptr i)) ∧
     (∀ j, resolveSpec riid a.baseChains (a.aggrs.map Prod.fst) = .inner j →
        ∃ entry, a.aggrs.get? j = some entry ∧
          a.inner_query_interface riid = a.aggrArm entry riid) ∧
     (resolveSpec riid a.baseChains (a.aggrs.map Prod.fst) = .noInterface →
        a.inner_query_interface riid = .ok E_NOINTERFACE .null a)) := by
  have hc := query_interface_cases o riid
  have hia := inner_query_interface_cases a riid
  refine ⟨⟨?_, ?_, ?_, ?_⟩, ?_, ?_, ?_, ?_⟩
  · intro h
    rw [hc, h]
  · intro i h
    rw [hc, h]
  · intro j h
    have hj : findFirst (aggrGuard riid) o.aggrs = some j := by
      rw [← findFirst_aggrDecls]
      exact resolveSpec_inner_elim h
    rcases findFirst_some_get hj with ⟨entry, he, -⟩
    refine ⟨entry, he, ?_⟩
    rw [hc, h]
    simp only [he]
  · intro h
    rw [hc, h]
  · intro h
    rw [hia, h]
  · intro i h
    rw [hia, h]
  · intro j h
    have hj : findFirst (aggrGuard riid) a.aggrs = some j := by
      rw [← findFirst_aggrDecls]
      exact resolveSpec_inner_elim h
    rcases findFirst_some_get hj with ⟨entry, he, -⟩
    refine ⟨entry, he, ?_⟩
    rw [hia, h]
    simp only [he]
  · intro h
    rw [hia, h]

/-- A small co_class instance implementing one interface. -/
def demoCo : CoClass := { baseChains := [[5, 3]], aggrs := [], refCount := 1 }

/-- A small aggregable-class instance implementing one interface. -/
def demoAg : AggrObj := { baseChains := [[5, 3]], aggrs := [], refCnt := 1 }

/-!  Guard evaluation lemmas. -/

theorem iidInChain_eq_true {riid : IID} {ch : List IID} (h : riid ∈ ch) :
    iidInChain ch riid = true := by
  simpa [iidInChain] using h

theorem iidInChain_eq_false {riid : IID} {ch : List IID} (h : riid ∉ ch) :
    iidInChain ch riid = false := by
  simpa [iidInChain] using h

theorem aggrGuard_eq_true {riid : IID} {α : Type} {e : List (List IID) × α}
    {ch : List IID} (hch : ch ∈ e.1) (hr : riid ∈ ch) :
    aggrGuard riid e = true :=
  List.any_eq_true.mpr ⟨ch, hch, iidInChain_eq_true hr⟩

theorem aggrGuard_eq_false {riid : IID} {α : Type} {e : List (List IID) × α}
    (h : ∀ ch ∈ e.1, riid ∉ ch) : aggrGuard riid e = false := by
  cases hx : aggrGuard riid e with
  | false => rfl
  | true =>
    rcases List.any_eq_true.mp hx with ⟨ch, hch, hcc⟩
    rw [iidInChain_eq_false (h ch hch)] at hcc
    cases hcc

/-- A successful checked add_ref, spelled out. -/
theorem add_ref_eq_of_lt {o : CoClass} (h : o.refCount + 1 < U32) :
    o.add_ref = some (o.refCount + 1, { o with refCount := o.refCount + 1 }) := by
  unfold CoClass.add_ref
  rw [if_pos h]

/-- C2: for every instance and every id in the ancestor chain of a directly
implemented interface, query_interface returns NOERROR, stores a non-null
dispatch-table pointer (the vptr field of some implemented interface)
through ppv, and increments the reference count by exactly one.  The side
condition keeps the checked add_ref below the fatal u32 overflow. -/
theorem c2_direct_query_success (o : CoClass) (riid : IID)
    (himpl : ∃ ch ∈ o.baseChains, riid ∈ ch)
    (hcnt : o.refCount + 1 < U32) :
    ∃ p o', o.query_interface riid = .ok NOERROR p o' ∧
      p ≠ CPtr.null ∧ (∃ i, p = CPtr.vptr i) ∧
      o'.refCount = o.refCount + 1 := by
  have hadd := add_ref_eq_of_lt hcnt
  by_cases hid : riid = IID_IUNKNOWN
  · refine ⟨.vptr 0, { o with refCount := o.refCount + 1 }, ?_, by decide, ⟨0, rfl⟩, rfl⟩
    unfold CoClass.query_interface
    rw [if_pos hid]
    unfold CoClass.qiFinish
    rw [hadd]
  · rcases himpl with ⟨ch, hch, hr⟩
    rcases findFirst_isSome_of_mem (p := baseGuard riid) hch (iidInChain_eq_true hr)
      with ⟨i, hi⟩
    refine ⟨.vptr i, { o with refCount := o.refCount + 1 }, ?_, by simp, ⟨i, rfl⟩, rfl⟩
    unfold CoClass.query_interface
    rw [if_neg hid, hi]
    unfold CoClass.qiFinish
    rw [hadd]

/-- Witness for C2: the demo instance queried for an id it implements. -/
theorem c2_direct_query_success_witness :
    ∃ p o', CoClass.query_interface demoCo 5 = .ok NOERROR p o' ∧
      p ≠ CPtr.null ∧ (∃ i, p = CPtr.vptr i) ∧
      o'.refCount = demoCo.refCount + 1 :=
  c2_direct_query_success demoCo 5 ⟨[5, 3], by simp [demoCo], by simp⟩
    (by simp [demoCo, U32])

/-- C3: for every id that is not the identity id, is in no directly
implemented ancestor chain, and is in no declared chain of any aggregated
entry, both the public query_interface and the non-delegating
inner_query_interface return E_NOINTERFACE with a null ppv and the object
state — reference count included — unchanged. -/
theorem c3_unmatched_no_interface (o : CoClass) (a : AggrObj) (riid : IID)
    (hid : riid ≠ IID_IUNKNOWN)
    (hbase : ∀ ch ∈ o.baseChains, riid ∉ ch)
    (haggr : ∀ e ∈ o.aggrs, ∀ ch ∈ e.1, riid ∉ ch)
    (hbase2 : ∀ ch ∈ a.baseChains, riid ∉ ch)
    (haggr2 : ∀ e ∈ a.aggrs, ∀ ch ∈ e.1, riid ∉ ch) :
    o.query_interface riid = .ok E_NOINTERFACE .null o ∧
    a.inner_query_interface riid = .ok E_NOINTERFACE .null a := by
  have hb : findFirst (baseGuard riid) o.baseChains = none :=
    (findFirst_eq_none _ _).mpr (fun ch hch => iidInChain_eq_false (hbase ch hch))
  have hg : findFirst (aggrGuard riid) o.aggrs = none :=
    (findFirst_eq_none _ _).mpr (fun e he => aggrGuard_eq_false (haggr e he))
  have hb2 : findFirst (baseGuard riid) a.baseChains = none :=
    (findFirst_eq_none _ _).mpr (fun ch hch => iidInChain_eq_false (hbase2 ch hch))
  have hg2 : findFirst (aggrGuard riid) a.aggrs = none :=
    (findFirst_eq_none _ _).mpr (fun e he => aggrGuard_eq_false (haggr2 e he))
  constructor
  · unfold CoClass.query_interface
    rw [if_neg hid, hb, hg]
  · unfold AggrObj.inner_query_interface
    rw [if_neg hid, hb2, hg2]

/-- C10: the generated non-aggregable class has no separate identity
dispatch table; a query for the identity id is answered with the vptr field
of the first listed implemented interface, so the identity pointer coincides
with the pointer answered for an id of the first implemented interface. -/
theorem c10_identity_is_first_vptr (o : CoClass) (riid : IID)
    (hcnt : o.refCount + 1 < U32)
    (hfst : ∃ ch, o.baseChains.head? = some ch ∧ riid ∈ ch) :
    o.query_interface IID_IUNKNOWN
        = .ok NOERROR (.vptr 0) { o with refCount := o.refCount + 1 } ∧
    o.query_interface riid
        = .ok NOERROR (.vptr 0) { o with refCount := o.refCount + 1 } := by
  have hadd := add_ref_eq_of_lt hcnt
  have hident : o.query_interface IID_IUNKNOWN
      = .ok NOERROR (.vptr 0) { o with refCount := o.refCount + 1 } := by
    unfold CoClass.query_interface
    rw [if_pos rfl]
    unfold CoClass.qiFinish
    rw [hadd]
  refine ⟨hident, ?_⟩
  by_cases hid : riid = IID_IUNKNOWN
  · rw [hid]
    exact hident
  · rcases hfst with ⟨ch, hch, hr⟩
    have hbc : ∃ rest, o.baseChains = ch :: rest := by
      cases hx : o.baseChains with
      | nil => rw [hx] at hch; cases hch
      | cons c0 rest =>
        rw [hx] at hch
        simp only [List.head?_cons, Option.some_inj] at hch
        subst hch
        exact ⟨rest, rfl⟩
    rcases hbc with ⟨rest, hbc⟩
    have hfind : findFirst (baseGuard riid) o.baseChains = some 0 := by
      rw [hbc]
      simp [findFirst, baseGuard, iidInChain_eq_true hr]
    unfold CoClass.query_interface
    rw [if_neg hid, hfind]
    unfold CoClass.qiFinish
    rw [hadd]

/-- Witness for C1: at the identity id the public query of the demo instance
takes the identity branch. -/
theorem c1_resolution_order_witness :
    CoClass.query_interface demoCo IID_IUNKNOWN
      = CoClass.qiFinish demoCo (.vptr 0) :=
  (c1_resolution_order demoCo demoAg IID_IUNKNOWN).1.1 rfl

/-!  Concrete instances used to evaluate the code at the inputs that decide
the reference-count claims. -/

/-- An aggregable-class instance at reference count 0. -/
def aggrAtZero : AggrObj := { baseChains := [], aggrs := [], refCnt := 0 }

/-- A co_class instance at reference count 0. -/
def coAtZero : CoClass := { baseChains := [], aggrs := [], refCount := 0 }

/-- An aggregable-class instance at the maximal u32 reference count. -/
def aggrAtMax : AggrObj := { baseChains := [], aggrs := [], refCnt := U32 - 1 }

/-- A co_class instance at the maximal u32 reference count. -/
def coAtMax : CoClass := { baseChains := [], aggrs := [], refCount := U32 - 1 }

/-- C4: the claim says release — including the non-delegating inner_release —
rejects a decrement at reference count 0 as a fatal invariant violation via
checked arithmetic and never silently wraps the count.  Evaluating the code
at count 0: the emitted inner_release performs the plain u32 subtraction, so
it silently wraps to 2^32 - 1, returns that count, does not trap and does not
deallocate, while the co_class release (checked_sub with expect) does trap.
The first conjunct exhibits the divergence of the aggregable class from the
claim; the second shows the behaviour the claim describes on the co_class
side. -/
theorem c4_inner_release_wraps_at_zero :
    AggrObj.inner_release aggrAtZero =
      (U32 - 1, false, { aggrAtZero with refCnt := U32 - 1 }) ∧
    CoClass.release coAtZero = none := by
  exact ⟨rfl, rfl⟩

/-- C5: the claim says every increment — both add_ref and the non-delegating
inner_add_ref — uses checked arithmetic and treats overflow as a fatal abort
rather than silently wrapping.  Evaluating the code at the maximal u32 count:
the emitted inner_add_ref performs the plain u32 addition, so it silently
wraps to 0 and returns 0, while the co_class add_ref (checked_add with
expect) does trap.  The first conjunct exhibits the divergence of the
aggregable class from the claim; the second shows the checked behaviour on
the co_class side. -/
theorem c5_inner_add_ref_wraps_at_max :
    AggrObj.inner_add_ref aggrAtMax = (0, { aggrAtMax with refCnt := 0 }) ∧
    CoClass.add_ref coAtMax = none := by
  exact ⟨rfl, rfl⟩

/-- Witness for C3: the demo instances queried for an unrelated id. -/
theorem c3_unmatched_no_interface_witness :
    CoClass.query_interface demoCo 9 = .ok E_NOINTERFACE .null demoCo ∧
    AggrObj.inner_query_interface demoAg 9 = .ok E_NOINTERFACE .null demoAg :=
  c3_unmatched_no_interface demoCo demoAg 9 (by decide) (by decide) (by decide)
    (by decide) (by decide)

/-- Witness for C10: the demo instance queried for the identity id and for
an id of its first implemented interface answers with the same pointer. -/
theorem c10_identity_is_first_vptr_witness :
    CoClass.query_interface demoCo IID_IUNKNOWN
        = .ok NOERROR (.vptr 0) { demoCo with refCount := demoCo.refCount + 1 } ∧
    CoClass.query_interface demoCo 5
        = .ok NOERROR (.vptr 0) { demoCo with refCount := demoCo.refCount + 1 } :=
  c10_identity_is_first_vptr demoCo 5 (by decide) ⟨[5, 3], rfl, by decide⟩

/-!  The add_ref-then-release pair (C9). -/

/-- A freshly allocated co_class instance: the generators initialise the
reference count to 0. -/
def freshCo : CoClass := { baseChains := [[5, 3]], aggrs := [], refCount := 0 }

/-- C9 counterexample: on a fresh instance (reference count 0, the value the
generated allocate emits) add_ref followed by release does restore the count
to 0, but the release observes the zero crossing and performs the
deallocation (Box::from_raw), so the pair does trigger deallocation,
contrary to the claim that it never does. -/
theorem c9_pair_deallocates_at_zero :
    CoClass.add_ref freshCo = some (1, { freshCo with refCount := 1 }) ∧
    CoClass.release { freshCo with refCount := 1 } = some (0, true, freshCo) := by
  exact ⟨rfl, rfl⟩

/-- C9 (amended): for every instance whose reference count is at least 1 and
below the u32 maximum, add_ref followed by release restores the count to its
value before the pair and does not trigger deallocation.  At count 0 the
pair still restores the count but the release deallocates the instance. -/
theorem c9_pair_restores_count (o : CoClass) (h1 : 1 ≤ o.refCount)
    (h2 : o.refCount + 1 < U32) :
    o.add_ref = some (o.refCount + 1, { o with refCount := o.refCount + 1 }) ∧
    CoClass.release { o with refCount := o.refCount + 1 }
      = some (o.refCount, false, o) := by
  refine ⟨add_ref_eq_of_lt h2, ?_⟩
  have hz : (o.refCount == 0) = false := beq_eq_false_iff_ne.mpr (by omega)
  have hrel : CoClass.release { o with refCount := o.refCount + 1 }
      = some (o.refCount, o.refCount == 0, { o with refCount := o.refCount }) := rfl
  rw [hrel, hz]

/-- Witness for C9 (amended): the pair on the demo instance at count 1. -/
theorem c9_pair_restores_count_witness :
    CoClass.add_ref demoCo
        = some (demoCo.refCount + 1, { demoCo with refCount := demoCo.refCount + 1 }) ∧
    CoClass.release { demoCo with refCount := demoCo.refCount + 1 }
      = some (demoCo.refCount, false, demoCo) :=
  c9_pair_restores_count demoCo (by decide) (by decide)

/-!  Aggregation forwarding (C6, C7, C8). -/

/-- An inner aggregable object that does not implement interface 7. -/
def innerNo7 : AggrObj := { baseChains := [[5]], aggrs := [], refCnt := 3 }

/-- An inner aggregable object that implements interface 7. -/
def innerYes7 : AggrObj := { baseChains := [[7]], aggrs := [], refCnt := 3 }

/-- An outer co_class aggregating both inner objects, the one failing the
forward first; both entries declare interface 7. -/
def outerTwo : CoClass :=
  { baseChains := [[1]],
    aggrs := [([[7]], some innerNo7), ([[7]], some innerYes7)],
    refCount := 2 }

/-- An outer co_class aggregating only the failing inner object. -/
def outerOne : CoClass :=
  { baseChains := [[1]], aggrs := [([[7]], some innerNo7)], refCount := 2 }

/-- An outer co_class aggregating only the succeeding inner object. -/
def outerYes : CoClass :=
  { baseChains := [[1]], aggrs := [([[7]], some innerYes7)], refCount := 2 }

/-- C7 counterexample: on outerTwo, the query for interface 7 enters the arm
of the first matching aggregated entry, whose inner object fails the
forwarded query, and the generated code then returns E_NOINTERFACE for the
whole call at once — even though the next registered inner object (second
conjunct) satisfies the same id — instead of continuing to it as the claim
states. -/
theorem c7_first_failure_stops :
    CoClass.query_interface outerTwo 7 = .ok E_NOINTERFACE .null outerTwo ∧
    AggrObj.inner_query_interface innerYes7 7
      = .ok NOERROR (.vptr 0) { innerYes7 with refCnt := 4 } := by
  exact ⟨rfl, rfl⟩

/-- When the identity and base-interface arms do not match and the first
matching aggregated entry is found, the co_class query_interface executes
that aggregation arm. -/
theorem query_interface_aggr_step (o : CoClass) (riid : IID) {j : Nat}
    {entry : CEntry}
    (hid : riid ≠ IID_IUNKNOWN)
    (hbase : findFirst (baseGuard riid) o.baseChains = none)
    (hj : findFirst (aggrGuard riid) o.aggrs = some j)
    (he : o.aggrs.get? j = some entry) :
    o.query_interface riid = o.aggrArm j entry riid := by
  unfold CoClass.query_interface
  rw [if_neg hid, hbase, hj]
  have h1 : (match o.aggrs.get? j with
      | some e => o.aggrArm j e riid
      | none => CQIRes.crash) = o.aggrArm j entry riid := by
    rw [he]
  exact h1

/-- The failed-forward path of the co_class aggregation arm: the whole call
answers E_NOINTERFACE with a null ppv at once. -/
theorem aggrArm_failed (o : CoClass) (j : Nat) (entry : CEntry) (riid : IID)
    {inner inner' : AggrObj} {hr : Int} {p : APtr}
    (hw : entry.2 = some inner)
    (hq : inner.inner_query_interface riid = .ok hr p inner')
    (hf : failed hr = true) :
    o.aggrArm j entry riid
      = .ok E_NOINTERFACE .null (o.setInner j entry.1 inner') := by
  unfold CoClass.aggrArm
  rw [hw]
  have h3 : (match inner.inner_query_interface riid with
      | AQIRes.crash => CQIRes.crash
      | AQIRes.ok hr2 p2 in2 =>
        if failed hr2 then CQIRes.ok E_NOINTERFACE CPtr.null (o.setInner j entry.1 in2)
        else (o.setInner j entry.1 ((in2.inner_release).2.2)).qiFinish
          (CPtr.innerPtr j p2))
      = CQIRes.ok E_NOINTERFACE CPtr.null (o.setInner j entry.1 inner') := by
    rw [hq]
    show (if failed hr then
            CQIRes.ok E_NOINTERFACE CPtr.null (o.setInner j entry.1 inner')
          else (o.setInner j entry.1 ((inner'.inner_release).2.2)).qiFinish
            (CPtr.innerPtr j p))
        = CQIRes.ok E_NOINTERFACE CPtr.null (o.setInner j entry.1 inner')
    rw [if_pos hf]
  exact h3

/-- C7 (amended): when the forwarded query to the first matching aggregated
inner object reports failure, query_interface fails the whole call with
E_NOINTERFACE and a null ppv at once; later aggregated entries are not
tried. -/
theorem c7_forward_failure_aborts (o : CoClass) (riid : IID) (j : Nat)
    (entry : CEntry) (inner inner' : AggrObj) (hr : Int) (p : APtr)
    (hid : riid ≠ IID_IUNKNOWN)
    (hbase : findFirst (baseGuard riid) o.baseChains = none)
    (hj : findFirst (aggrGuard riid) o.aggrs = some j)
    (he : o.aggrs.get? j = some entry)
    (hw : entry.2 = some inner)
    (hq : inner.inner_query_interface riid = .ok hr p inner')
    (hf : failed hr = true) :
    o.query_interface riid
      = .ok E_NOINTERFACE .null (o.setInner j entry.1 inner') := by
  rw [query_interface_aggr_step o riid hid hbase hj he]
  exact aggrArm_failed o j entry riid hw hq hf

/-- Witness for C7 (amended): the failing forward on outerOne. -/
theorem c7_forward_failure_aborts_witness :
    CoClass.query_interface outerOne 7
      = .ok E_NOINTERFACE .null (CoClass.setInner outerOne 0 [[7]] innerNo7) :=
  c7_forward_failure_aborts outerOne 7 0 ([[7]], some innerNo7) innerNo7 innerNo7
    E_NOINTERFACE .null (by decide) rfl rfl rfl rfl rfl rfl

/-- Wrap-back of the unchecked u32 increment and decrement pair. -/
theorem u32_inc_dec (c : Nat) (h : c < U32) :
    ((c + 1) % U32 + (U32 - 1)) % U32 = c := by
  have hU : U32 = 4294967296 := by norm_num [U32]
  rw [hU] at h ⊢
  omega

/-- The success path of the co_class aggregation arm: a forwarded query that
answered NOERROR is followed by the compensating release on the inner object
and by the outer success tail. -/
theorem aggrArm_ok (o : CoClass) (j : Nat) (entry : CEntry) (riid : IID)
    {inner inner' : AggrObj} {p : APtr}
    (hw : entry.2 = some inner)
    (hq : inner.inner_query_interface riid = .ok NOERROR p inner') :
    o.aggrArm j entry riid
      = (o.setInner j entry.1 ((inner'.inner_release).2.2)).qiFinish
          (.innerPtr j p) := by
  unfold CoClass.aggrArm
  rw [hw]
  have h3 : (match inner.inner_query_interface riid with
      | AQIRes.crash => CQIRes.crash
      | AQIRes.ok hr2 p2 in2 =>
        if failed hr2 then CQIRes.ok E_NOINTERFACE CPtr.null (o.setInner j entry.1 in2)
        else (o.setInner j entry.1 ((in2.inner_release).2.2)).qiFinish
          (CPtr.innerPtr j p2))
      = (o.setInner j entry.1 ((inner'.inner_release).2.2)).qiFinish
          (CPtr.innerPtr j p) := by
    rw [hq]
    show (if failed NOERROR then
            CQIRes.ok E_NOINTERFACE CPtr.null (o.setInner j entry.1 inner')
          else (o.setInner j entry.1 ((inner'.inner_release).2.2)).qiFinish
            (CPtr.innerPtr j p))
        = (o.setInner j entry.1 ((inner'.inner_release).2.2)).qiFinish
            (CPtr.innerPtr j p)
    rw [if_neg (by decide)]
  exact h3

/-- C6: when the outer object forwards a query to a wired aggregated inner
object that directly implements the requested interface, the outer query
returns NOERROR with the forwarded pointer, increments the outer reference
count by exactly 1, and leaves the inner object stored in the entry with its
reference count exactly as before the call (the increment performed by the
forwarded query is compensated by exactly one release on the inner before
returning). -/
theorem c6_aggregated_query_frame (o : CoClass) (inner : AggrObj) (j : Nat)
    (ds : List (List IID)) (riid : IID)
    (hid : riid ≠ IID_IUNKNOWN)
    (hbase : findFirst (baseGuard riid) o.baseChains = none)
    (hj : findFirst (aggrGuard riid) o.aggrs = some j)
    (he : o.aggrs.get? j = some (ds, some inner))
    (himpl : ∃ ch ∈ inner.baseChains, riid ∈ ch)
    (hocnt : o.refCount + 1 < U32)
    (hicnt : inner.refCnt < U32) :
    ∃ i, o.query_interface riid
      = .ok NOERROR (.innerPtr j (.vptr i))
          { o with aggrs := o.aggrs.set j (ds, some inner),
                   refCount := o.refCount + 1 } := by
  rcases himpl with ⟨ch, hch, hrm⟩
  rcases findFirst_isSome_of_mem (p := baseGuard riid) hch (iidInChain_eq_true hrm)
    with ⟨i, hi⟩
  refine ⟨i, ?_⟩
  have hqi : inner.inner_query_interface riid
      = .ok NOERROR (.vptr i) { inner with refCnt := (inner.refCnt + 1) % U32 } := by
    unfold AggrObj.inner_query_interface
    rw [if_neg hid, hi]
    rfl
  have hback : (AggrObj.inner_release
      { inner with refCnt := (inner.refCnt + 1) % U32 }).2.2 = inner := by
    show ({ inner with
      refCnt := ((inner.refCnt + 1) % U32 + (U32 - 1)) % U32 } : AggrObj) = inner
    rw [u32_inc_dec inner.refCnt hicnt]
  rw [query_interface_aggr_step o riid hid hbase hj he]
  rw [aggrArm_ok o j (ds, some inner) riid rfl hqi, hback]
  unfold CoClass.qiFinish
  rw [add_ref_eq_of_lt (o := o.setInner j ds inner) hocnt]
  rfl

/-- Witness for C6: the forwarded query for interface 7 on outerYes. -/
theorem c6_aggregated_query_frame_witness :
    ∃ i, CoClass.query_interface outerYes 7
      = .ok NOERROR (.innerPtr 0 (.vptr i))
          { outerYes with aggrs := outerYes.aggrs.set 0 ([[7]], some innerYes7),
                          refCount := outerYes.refCount + 1 } :=
  c6_aggregated_query_frame outerYes innerYes7 0 [[7]] 7 (by decide) rfl rfl rfl
    ⟨[7], by decide, by decide⟩ (by decide) (by decide)

/-!  The unwired (null) aggregated field (C8). -/

/-- An aggregable instance whose aggregated field declaring interface 9 was
never set. -/
def aggrUnwired : AggrObj :=
  { baseChains := [[5]], aggrs := [([[9]], none)], refCnt := 1 }

/-- A co_class instance whose aggregated field declaring interface 9 was
never set. -/
def coUnwired : CoClass :=
  { baseChains := [[5]], aggrs := [([[9]], none)], refCount := 1 }

/-- C8: evaluating both generated resolvers at a query that reaches a null
aggregated field.  The co_class query_interface tests is_null first and
reports E_NOINTERFACE with a null ppv and unchanged state, as the claim
says; but the aggregable-class inner_query_interface has no such guard: it
builds a ComPtr from the null field and calls query_interface through it, a
null vtable dereference (undefined behaviour), contradicting the claim that
the query never dereferences the null pointer or crashes. -/
theorem c8_unwired_inner_crashes :
    AggrObj.inner_query_interface aggrUnwired 9 = .crash ∧
    CoClass.query_interface coUnwired 9 = .ok E_NOINTERFACE .null coUnwired := by
  exact ⟨rfl, rfl⟩

end ComRs
